import Mathlib

/-!
Verification of the parcel-booking backend core: booking lifecycle and
payment reconciliation, fare computation (distance tiers and city routes),
and coupon discounting.  The definitions below are a shallow embedding of
the TypeScript sources: JS numbers that hold money, distances and weights
are modelled as rationals, JS Math.round as floor of x + 1/2, string
handling (trim, lower-casing, prefix tests, split-on-dash) over the
underlying character lists, and the Firestore collections as association
lists from document id to document.
-/

set_option allowUnsafeReducibility true in
attribute [semireducible] Rat.add Rat.mul Rat.sub Rat.inv

deriving instance DecidableEq for Except

namespace ParcelWala

/-- JS Math.round on a rational: round half up, i.e. the floor of q + 1/2. -/
def jsRound (q : ℚ) : ℚ := ((q + 1/2).floor : ℤ)

/-- JS String.prototype.trim on the character list: strip leading and
trailing whitespace. -/
def jsTrimList (l : List Char) : List Char :=
  ((l.dropWhile Char.isWhitespace).reverse.dropWhile Char.isWhitespace).reverse

/-- JS s.trim() -/
def jsTrim (s : String) : String := ⟨jsTrimList s.data⟩

/-- JS s.trim().toLowerCase(): the normalisation both sides of a city-route
comparison go through (cityService.getCityRoute). -/
def normCity (s : String) : String := ⟨(jsTrimList s.data).map Char.toLower⟩

/-- JS merchantReferenceId.startsWith("temp-") (paymentController.handleWebhook). -/
def isTempRef (s : String) : Bool := decide (s.data.take 5 = "temp-".data)

/-- JS merchantReferenceId.split("-")[0]: the segment before the first dash,
or the whole string when it has none (paymentController.handleWebhook,
existing-booking branch). -/
def firstDashSegment (s : String) : String :=
  ⟨s.data.takeWhile (fun c => decide (c ≠ '-'))⟩

/-- One character of the JS replace(/[^a-zA-Z0-9_-]/g, "_") sanitisation. -/
def sanitizeChar (c : Char) : Char :=
  if c.isAlphanum || c = '_' || c = '-' then c else '_'

/-- JS merchantReferenceId.replace(/[^a-zA-Z0-9_-]/g, "_"): the temp-booking
document id derived from the merchant reference id (bookingService). -/
def sanitizeId (s : String) : String := ⟨s.data.map sanitizeChar⟩

/-! Pricing engine (pricingService: calculateFare, DEFAULT_PRICING) -/

/-- One tier of the pricing rule set ({minKm, maxKm, maxWeight, fare, applyGst}). -/
structure BaseRate where
  minKm : ℚ
  maxKm : ℚ
  maxWeight : ℚ
  fare : ℚ
  applyGst : Option Bool
deriving DecidableEq

/-- Pricing settings: ordered tier list plus a GST percentage. -/
structure PricingSettings where
  baseRates : List BaseRate
  gstPercent : ℚ
deriving DecidableEq

/-- The hard-coded fallback pricing (pricingService DEFAULT_PRICING). -/
def DEFAULT_PRICING : PricingSettings :=
  { baseRates :=
      [ { minKm := 0, maxKm := 40, maxWeight := 3, fare := 50, applyGst := some false },
        { minKm := 41, maxKm := 60, maxWeight := 5, fare := 70, applyGst := some true } ],
    gstPercent := 18 }

/-- Result of calculateFare. -/
structure FareCalculation where
  distanceInKm : ℚ
  baseFare : ℚ
  gst : ℚ
  totalFare : ℚ
deriving DecidableEq

/-- The tier-matching test of the calculateFare loop:
distanceInKm >= rate.minKm && distanceInKm <= rate.maxKm && weightInKg <= rate.maxWeight. -/
def matchesRate (d w : ℚ) (r : BaseRate) : Bool :=
  decide (r.minKm ≤ d ∧ d ≤ r.maxKm ∧ w ≤ r.maxWeight)

/-- The for-loop of calculateFare: walk the tiers in order, break on the
first match.  Returns the selected tier, if any. -/
def selectRateLoop (d w : ℚ) : List BaseRate → Option BaseRate
  | [] => none
  | r :: rs => if matchesRate d w r then some r else selectRateLoop d w rs

/-- The no-match fallback of calculateFare: JS
baseRates.reduce((prev, cur) => prev.fare > cur.fare ? prev : cur). -/
def highestRate : List BaseRate → Option BaseRate
  | [] => none
  | r :: rs => some (rs.foldl (fun prev cur => if prev.fare > cur.fare then prev else cur) r)

/-- The reduce step of highestRate, named for the lemmas about it. -/
def maxFareStep (prev cur : BaseRate) : BaseRate :=
  if prev.fare > cur.fare then prev else cur

/-- The tier calculateFare ends up using: the first match of the loop, or the
highest-fare fallback when the loop found none. -/
def selectedRate (ps : PricingSettings) (d w : ℚ) : Option BaseRate :=
  match selectRateLoop d w ps.baseRates with
  | some r => some r
  | none => highestRate ps.baseRates

/-- The raw fare selected by the loop / fallback, before the minimum-fare
substitution: exposes where the hard-coded minimum of 50 kicks in. -/
def rawSelectedFare (ps : PricingSettings) (d w : ℚ) : ℚ :=
  ((selectedRate ps d w).map (·.fare)).getD 0

/-- pricingService.calculateFare, with the pricing settings passed in (the
source reads them from Firestore, falling back to DEFAULT_PRICING).
Faithfully: first-match loop; highest-fare fallback when no tier matches;
hard minimum of 50 with GST off when the resulting fare is 0 (which is also
the empty-rule-set case); GST percent treated as 18 when falsy. -/
def calculateFare (ps : PricingSettings) (d w : ℚ) : FareCalculation :=
  let sel : Option BaseRate := selectedRate ps d w
  let base0 : ℚ := (sel.map (·.fare)).getD 0
  let gst0 : Bool := match sel with | some r => r.applyGst.getD true | none => false
  let baseFare : ℚ := if base0 = 0 then 50 else base0
  let applyGst : Bool := if base0 = 0 then false else gst0
  let gst : ℚ :=
    if applyGst then jsRound (baseFare * (if ps.gstPercent = 0 then 18 else ps.gstPercent) / 100)
    else 0
  { distanceInKm := jsRound (d * 100) / 100
    baseFare := baseFare
    gst := gst
    totalFare := baseFare + gst }

/-! Coupons (couponService.validateCoupon) -/

inductive DiscountType
  | percentage
  | fixed
deriving DecidableEq

/-- Coupon document.  Optional numeric fields are checked with JS truthiness
in the source, so a stored 0 behaves like an absent field. -/
structure Coupon where
  code : String
  discountType : DiscountType
  discountValue : ℚ
  minOrderAmount : Option ℚ
  maxDiscountAmount : Option ℚ
  maxUsage : Option ℕ
  currentUsage : ℕ
  validFrom : ℤ
  validUntil : ℤ
  isActive : Bool
deriving DecidableEq

/-- Result shape of validateCoupon ({isValid, discountAmount, message}). -/
structure CouponValidation where
  isValid : Bool
  discountAmount : ℚ
  message : Option String
deriving DecidableEq

/-- JS truthiness of an optional number field (absent or 0 is falsy). -/
def qTruthy : Option ℚ → Bool
  | none => false
  | some q => decide (q ≠ 0)

/-- JS truthiness of an optional count field. -/
def nTruthy : Option ℕ → Bool
  | none => false
  | some n => decide (n ≠ 0)

/-- couponService.validateCoupon, given the coupon document found for the
(uppercased) code and the current time in epoch milliseconds.  The checks
and the discount computation follow the source line by line; note that the
max-discount cap is applied only in the percentage branch. -/
def validateCoupon (c : Coupon) (orderAmount : ℚ) (now : ℤ) : CouponValidation :=
  if !c.isActive then ⟨false, 0, some "Coupon is not active"⟩
  else if now < c.validFrom then ⟨false, 0, some "Coupon is not yet valid"⟩
  else if c.validUntil < now then ⟨false, 0, some "Coupon has expired"⟩
  else if qTruthy c.minOrderAmount && decide (orderAmount < c.minOrderAmount.getD 0) then
    ⟨false, 0, some "Minimum order amount required"⟩
  else if nTruthy c.maxUsage && decide (c.maxUsage.getD 0 ≤ c.currentUsage) then
    ⟨false, 0, some "Coupon usage limit reached"⟩
  else
    let d0 : ℚ :=
      match c.discountType with
      | .percentage =>
        let p := orderAmount * c.discountValue / 100
        if qTruthy c.maxDiscountAmount && decide (c.maxDiscountAmount.getD 0 < p) then
          c.maxDiscountAmount.getD 0
        else p
      | .fixed => c.discountValue
    ⟨true, min d0 orderAmount, none⟩

/-! ## City routes (cityService.getCityRoute, upsertCityRoute) and the
city-route branch of mapController.calculateBookingFare -/

/-- City route document (fixed-price override for a city pair). -/
structure CityRoute where
  fromCity : String
  toCity : String
  baseFare : ℚ
  heavyFare : ℚ
  gstPercent : ℚ
  isActive : Bool
deriving DecidableEq

/-- The bidirectional case-insensitive match of the getCityRoute loop. -/
def cityMatches (fn tn : String) (r : CityRoute) : Bool :=
  decide ((normCity r.fromCity = fn ∧ normCity r.toCity = tn) ∨
          (normCity r.fromCity = tn ∧ normCity r.toCity = fn))

/-- cityService.getCityRoute: query the active routes and return the first
one matching the normalised pair in either direction. -/
def getCityRoute (routes : List CityRoute) (fromCity toCity : String) : Option CityRoute :=
  (routes.filter (·.isActive)).find? (cityMatches (normCity fromCity) (normCity toCity))

/-- The gstPercent actually persisted by cityService.upsertCityRoute:
routeData.gstPercent || 18, so a falsy (0) input is stored as 18. -/
def upsertGstPercent (g : ℚ) : ℚ := if g = 0 then 18 else g

/-- The fare breakdown built by the city-route branch of
mapController.calculateBookingFare. -/
structure CityFareResult where
  baseFare : ℚ
  gst : ℚ
  totalFare : ℚ
deriving DecidableEq

/-- The city-route fare computation of calculateBookingFare: base fare for
weight up to 3 kg, heavy fare for weight at least 5 kg and also for the
3 to 5 kg band; GST is rounded percent of the selected fare, with the
gstPercent of the route treated as 18 when falsy. -/
def cityRouteFare (r : CityRoute) (weight : ℚ) : CityFareResult :=
  let gstPercent := if r.gstPercent = 0 then 18 else r.gstPercent
  let baseFare := if weight ≤ 3 then r.baseFare else r.heavyFare
  let gst := jsRound (baseFare * gstPercent / 100)
  ⟨baseFare, gst, baseFare + gst⟩

/-- Application-level error (utils/errorHandler.createError): message plus
HTTP status code. -/
structure AppError where
  message : String
  statusCode : ℕ
deriving DecidableEq

/-- Outcome of mapController.calculateBookingFare: either the city-route
branch answered (distance pricing skipped), or the distance branch ran. -/
inductive FareOutcome
  | cityRoute (res : CityFareResult)
  | distance (res : FareCalculation)
deriving DecidableEq

/-- JS truthiness of an optional string (absent or empty is falsy). -/
def strTruthy : Option String → Bool
  | none => false
  | some s => decide (s ≠ "")

/-- mapController.calculateBookingFare.  The distance supplied to the
distance branch abstracts the pincode / haversine resolution of the controller
(an external input here); the city-route branch is modelled in full: when
both city names are truthy and an active route matches the trimmed names,
its result is returned and distance pricing never runs. -/
def calculateBookingFare (routes : List CityRoute) (ps : PricingSettings)
    (pickupCity dropCity : Option String) (weight distance : ℚ) :
    Except AppError FareOutcome :=
  if decide (weight ≤ 0) then .error ⟨"Weight must be a positive number", 400⟩
  else if strTruthy pickupCity && strTruthy dropCity then
    match getCityRoute routes (jsTrim (pickupCity.getD "")) (jsTrim (dropCity.getD "")) with
    | some r => .ok (.cityRoute (cityRouteFare r weight))
    | none => .ok (.distance (calculateFare ps distance weight))
  else .ok (.distance (calculateFare ps distance weight))

/-! Booking repository and staged-booking store (bookingService) -/

inductive BookingStatus
  | PendingPayment
  | Created
  | Picked
  | Shipped
  | Delivered
  | Returned
deriving DecidableEq

inductive PaymentStatus
  | pending
  | paid
  | failed
  | refunded
deriving DecidableEq

inductive PaymentMethod
  | cod
  | online
deriving DecidableEq

/-- Permanent booking document.  Address / parcel payloads are plain strings here
(carried through unchanged by every operation we model).  createdDay is the
DD-MM-YYYY date component that the same-day count of generateBookingId uses. -/
structure BookingDoc where
  userId : String
  pickup : String
  dropAddr : String
  parcelDetails : String
  status : BookingStatus
  paymentStatus : PaymentStatus
  paymentMethod : Option PaymentMethod
  fare : Option ℚ
  couponCode : Option String
  trackingNumber : String
  createdDay : String
deriving DecidableEq

/-- Staged (temp_bookings) document for an online payment. -/
structure TempBookingDoc where
  userId : String
  pickup : String
  dropAddr : String
  parcelDetails : String
  fare : ℚ
  couponCode : Option String
  merchantReferenceId : String
  bookingId : Option String
  expiresAt : ℤ
deriving DecidableEq

/-- The Firestore collections the reconciliation core touches, plus the
queue of temp-booking deletions scheduled by setTimeout (the 60 s grace
delay after a successful webhook): those deletions have been requested but
have not run yet inside the step that scheduled them. -/
structure Store where
  bookings : List (String × BookingDoc)
  temps : List (String × TempBookingDoc)
  deleteQueue : List String
deriving DecidableEq

/-- Document lookup by id in a collection. -/
def getDoc {α : Type} (l : List (String × α)) (k : String) : Option α :=
  (l.find? (fun kv => decide (kv.1 = k))).map (·.2)

/-- Firestore .doc(k).set(v): replace the document if present, else add it. -/
def setDoc {α : Type} : List (String × α) → String → α → List (String × α)
  | [], k, v => [(k, v)]
  | kv :: rest, k, v => if kv.1 = k then (k, v) :: rest else kv :: setDoc rest k v

/-- Firestore .doc(k).delete(). -/
def delDoc {α : Type} (l : List (String × α)) (k : String) : List (String × α) :=
  l.filter (fun kv => decide (kv.1 ≠ k))

/-- Left-pad a numeral to three digits (JS padStart(3, "0")). -/
def pad3 (n : ℕ) : String :=
  let s := toString n
  ⟨List.replicate (3 - s.data.length) '0' ++ s.data⟩

/-- bookingService.generateBookingId: PW- date - three-digit suffix, the
suffix being one more than the count of bookings created the same day. -/
def generateBookingId (st : Store) (today : String) : String :=
  "PW-" ++ today ++ "-" ++ pad3 ((st.bookings.filter (fun kv => decide (kv.2.createdDay = today))).length + 1)

/-- The couponCode filter of createBooking: stored only when neither absent
nor empty. -/
def storedCoupon : Option String → Option String
  | none => none
  | some c => if c = "" then none else some c

/-- bookingService.createBooking: tracking number and document id both come
from generateBookingId (evaluated on the same store, hence equal); an
online booking starts as PendingPayment, otherwise Created; paymentStatus
starts as pending.  Returns the new store, the new id and the document. -/
def createBooking (st : Store) (today userId pickup dropAddr parcel : String)
    (fare : Option ℚ) (method : Option PaymentMethod) (coupon : Option String) :
    Store × String × BookingDoc :=
  let id := generateBookingId st today
  let doc : BookingDoc :=
    { userId := userId
      pickup := pickup
      dropAddr := dropAddr
      parcelDetails := parcel
      status := if method = some .online then .PendingPayment else .Created
      paymentStatus := .pending
      paymentMethod := method
      fare := fare
      couponCode := storedCoupon coupon
      trackingNumber := id
      createdDay := today }
  ({ st with bookings := setDoc st.bookings id doc }, id, doc)

/-- The try-block of bookingService.updatePaymentStatus: missing booking
signals 404; otherwise paymentStatus is written, and when the new status is
paid while the booking is PendingPayment, status is set to Created in the
same update. -/
def updatePaymentStatusTry (st : Store) (id : String) (ps : PaymentStatus) :
    Except AppError Store :=
  match getDoc st.bookings id with
  | none => .error ⟨"Booking not found", 404⟩
  | some b =>
    let b' := { b with
      paymentStatus := ps
      status := if ps = .paid ∧ b.status = .PendingPayment then .Created else b.status }
    .ok { st with bookings := setDoc st.bookings id b' }

/-- bookingService.updatePaymentStatus: the surrounding catch rethrows any
failure as a 500 Failed to update payment status. -/
def updatePaymentStatus (st : Store) (id : String) (ps : PaymentStatus) :
    Except AppError Store :=
  match updatePaymentStatusTry st id ps with
  | .ok s => .ok s
  | .error _ => .error ⟨"Failed to update payment status", 500⟩

/-- The try-block of bookingService.updateBookingStatus. -/
def updateBookingStatusTry (st : Store) (id : String) (s : BookingStatus) :
    Except AppError Store :=
  match getDoc st.bookings id with
  | none => .error ⟨"Booking not found", 404⟩
  | some b => .ok { st with bookings := setDoc st.bookings id { b with status := s } }

/-- bookingService.updateBookingStatus with its catch-all rewrap. -/
def updateBookingStatus (st : Store) (id : String) (s : BookingStatus) :
    Except AppError Store :=
  match updateBookingStatusTry st id s with
  | .ok s' => .ok s'
  | .error _ => .error ⟨"Failed to update booking status", 500⟩

/-- The statuses the HTTP layer accepts for PATCH /bookings/:id/status
(userRoutes validStatuses); PendingPayment is never accepted. -/
def validStatuses : List BookingStatus :=
  [.Created, .Picked, .Shipped, .Delivered, .Returned]

/-- The route handler for booking-status updates: reject anything outside
validStatuses with a 400, else call the service. -/
def updateBookingStatusCtrl (st : Store) (id : String) (s : BookingStatus) :
    Except AppError Store :=
  if s ∈ validStatuses then updateBookingStatus st id s
  else .error ⟨"Invalid status", 400⟩

/-- The try-block of bookingService.updateFare: negative fare signals 400,
missing booking signals 404, otherwise the fare field is written. -/
def updateFareTry (st : Store) (id : String) (fare : ℚ) : Except AppError Store :=
  if fare < 0 then .error ⟨"Fare cannot be negative", 400⟩
  else match getDoc st.bookings id with
    | none => .error ⟨"Booking not found", 404⟩
    | some b => .ok { st with bookings := setDoc st.bookings id { b with fare := some fare } }

/-- bookingService.updateFare: the surrounding catch rethrows every failure,
including the 400 and 404 raised in its own try-block, as a 500 Failed to
update fare. -/
def updateFare (st : Store) (id : String) (fare : ℚ) : Except AppError Store :=
  match updateFareTry st id fare with
  | .ok s => .ok s
  | .error _ => .error ⟨"Failed to update fare", 500⟩

/-- The fare-update route handler (PATCH /bookings/:id/fare): its own
pre-check rejects a negative fare with 400 before the service runs. -/
def updateFareCtrl (st : Store) (id : String) (fare : ℚ) : Except AppError Store :=
  if fare < 0 then .error ⟨"Fare must be a positive number", 400⟩
  else updateFare st id fare

/-- bookingService.storeTempBookingData: document id is the sanitised
merchant reference id; payloads or fare failing the truthiness checks are
rejected; the record is stored with expiresAt one hour from now. -/
def storeTempBookingData (st : Store) (now : ℤ) (userId pickup dropAddr parcel : String)
    (fare : ℚ) (coupon : Option String) (mref : String) : Except AppError Store :=
  if pickup = "" ∨ dropAddr = "" ∨ parcel = "" then
    .error ⟨"Invalid booking data: missing required fields", 400⟩
  else if fare ≤ 0 then
    .error ⟨"Invalid booking data: fare must be positive", 400⟩
  else
    let t : TempBookingDoc :=
      { userId := userId, pickup := pickup, dropAddr := dropAddr, parcelDetails := parcel
        fare := fare, couponCode := coupon, merchantReferenceId := mref
        bookingId := none, expiresAt := now + 3600000 }
    .ok { st with temps := setDoc st.temps (sanitizeId mref) t }

/-- bookingService.getTempBookingData: look up the document under the
sanitised merchant reference id.  The source performs no expiry check: a
physically present record is returned however old it is. -/
def getTempBookingData (st : Store) (mref : String) : Option TempBookingDoc :=
  getDoc st.temps (sanitizeId mref)

/-- The staged-record reader as the specification words it (section 4.2):
a record whose expiry has passed is treated as absent by readers even if
physically still present.  Kept side by side with getTempBookingData to
compare the code against the spec. -/
def getTempBookingDataSpecRead (st : Store) (mref : String) (now : ℤ) : Option TempBookingDoc :=
  match getDoc st.temps (sanitizeId mref) with
  | none => none
  | some t => if t.expiresAt < now then none else some t

/-- bookingService.updateTempBookingData: write the created booking id onto
the staged record; a missing record only logs, leaving the store unchanged. -/
def updateTempBookingData (st : Store) (tempId bookingId : String) : Store :=
  match getDoc st.temps tempId with
  | none => st
  | some t => { st with temps := setDoc st.temps tempId { t with bookingId := some bookingId } }

/-- bookingService.deleteTempBookingData. -/
def deleteTempBookingData (st : Store) (tempId : String) : Store :=
  { st with temps := delDoc st.temps tempId }

/-- The setTimeout 60 s grace delay of the webhook success branch: the
deletion is only scheduled, the record stays in the store for now. -/
def scheduleTempDelete (st : Store) (tempId : String) : Store :=
  { st with deleteQueue := st.deleteQueue ++ [tempId] }

/-- The timer firing later: perform a scheduled deletion. -/
def runScheduledDelete (st : Store) (tempId : String) : Store :=
  if tempId ∈ st.deleteQueue then
    { deleteTempBookingData st tempId with deleteQueue := st.deleteQueue.erase tempId }
  else st

/-! ## Payment webhook (paymentController.handleWebhook,
paygicService.validateWebhookPayload) -/

/-- The data object of a raw webhook payload. -/
structure RawWebhookData where
  merchantReferenceId : Option String
deriving DecidableEq

/-- A raw webhook body as received: fields may be missing (None models both
a missing field and a field of the wrong type). -/
structure RawWebhook where
  status : Option Bool
  txnStatus : Option String
  data : Option RawWebhookData
deriving DecidableEq

/-- paygicService.validateWebhookPayload: requires a boolean status, a
truthy txnStatus, a data object and a truthy data.merchantReferenceId;
yields the transaction status and the merchant reference id. -/
def validateWebhookPayload (p : RawWebhook) : Except AppError (String × String) :=
  match p.status, p.txnStatus, p.data with
  | some _, some ts, some d =>
    if ts = "" then .error ⟨"Invalid webhook payload", 400⟩
    else
      match d.merchantReferenceId with
      | some m => if m = "" then .error ⟨"Invalid webhook payload", 400⟩ else .ok (ts, m)
      | none => .error ⟨"Invalid webhook payload", 400⟩
  | _, _, _ => .error ⟨"Invalid webhook payload", 400⟩

/-- HTTP response of the webhook endpoint. -/
structure HttpResponse where
  status : ℕ
  success : Bool
deriving DecidableEq

/-- The try-block of paymentController.handleWebhook, threading the store
through every intermediate effect (an effect performed before a later await
throws stays performed).  Staged (temp-) reference: on SUCCESS create the
booking from the staged payload, mark it paid, write the booking id back
onto the staged record, and schedule its deletion after the grace delay;
on FAILED delete the staged record.  Non-staged reference: the booking id
is taken as the segment of the merchant reference id before the first dash,
and on SUCCESS / FAILED the payment status is set to paid / failed. -/
def handleWebhookCore (st : Store) (today : String) (raw : RawWebhook) :
    Store × Except AppError Unit :=
  match validateWebhookPayload raw with
  | .error e => (st, .error e)
  | .ok (ts, mref) =>
    if isTempRef mref then
      match getTempBookingData st mref with
      | none => (st, .error ⟨"Temporary booking data not found", 404⟩)
      | some tmp =>
        if ts = "SUCCESS" then
          let res := createBooking st today tmp.userId tmp.pickup tmp.dropAddr
            tmp.parcelDetails (some tmp.fare) (some .online) tmp.couponCode
          let st1 := res.1
          let bid := res.2.1
          match updatePaymentStatus st1 bid .paid with
          | .error e => (st1, .error e)
          | .ok st2 =>
            let tempId := sanitizeId mref
            (scheduleTempDelete (updateTempBookingData st2 tempId bid) tempId, .ok ())
        else if ts = "FAILED" then
          (deleteTempBookingData st (sanitizeId mref), .ok ())
        else (st, .ok ())
    else
      let bid := firstDashSegment mref
      if ts = "SUCCESS" ∧ bid ≠ "" then
        match updatePaymentStatus st bid .paid with
        | .error e => (st, .error e)
        | .ok st' => (st', .ok ())
      else if ts = "FAILED" ∧ bid ≠ "" then
        match updatePaymentStatus st bid .failed with
        | .error e => (st, .error e)
        | .ok st' => (st', .ok ())
      else (st, .ok ())

/-- paymentController.handleWebhook: the catch swallows every internal
error and the endpoint acknowledges 200 either way, with success false
when the try-block threw. -/
def handleWebhook (st : Store) (today : String) (raw : RawWebhook) :
    Store × HttpResponse :=
  match handleWebhookCore st today raw with
  | (st', .ok _) => (st', ⟨200, true⟩)
  | (st', .error _) => (st', ⟨200, false⟩)

/-! ## The operations a client or the gateway can drive (the mutating API
surface of the booking core), as one step relation. -/

inductive Op
  | create (today userId pickup dropAddr parcel : String)
      (fare : Option ℚ) (method : Option PaymentMethod) (coupon : Option String)
  | setStatus (id : String) (s : BookingStatus)
  | setPaymentStatus (id : String) (ps : PaymentStatus)
  | setFare (id : String) (fare : ℚ)
  | stage (now : ℤ) (userId pickup dropAddr parcel : String) (fare : ℚ)
      (coupon : Option String) (mref : String)
  | webhook (today : String) (raw : RawWebhook)
  | timer (tempId : String)

/-- One step of the system: each operation applies its handler, a failed
handler leaving the store unchanged (the HTTP layer reports the error and
nothing was written). -/
def applyOp (st : Store) : Op → Store
  | .create today userId pickup dropAddr parcel fare method coupon =>
    (createBooking st today userId pickup dropAddr parcel fare method coupon).1
  | .setStatus id s =>
    match updateBookingStatusCtrl st id s with
    | .ok st' => st'
    | .error _ => st
  | .setPaymentStatus id ps =>
    match updatePaymentStatus st id ps with
    | .ok st' => st'
    | .error _ => st
  | .setFare id fare =>
    match updateFareCtrl st id fare with
    | .ok st' => st'
    | .error _ => st
  | .stage now userId pickup dropAddr parcel fare coupon mref =>
    match storeTempBookingData st now userId pickup dropAddr parcel fare coupon mref with
    | .ok st' => st'
    | .error _ => st
  | .webhook today raw => (handleWebhook st today raw).1
  | .timer tempId => runScheduledDelete st tempId

/-- The cross-field invariant of the booking state machine: no booking is
ever PendingPayment with a paid payment. -/
def NoPendingPaid (st : Store) : Prop :=
  ∀ kv ∈ st.bookings, ¬(kv.2.status = .PendingPayment ∧ kv.2.paymentStatus = .paid)

/-! Concrete fixtures used by the closed theorems below -/

def emptyStore : Store := ⟨[], [], []⟩

/-- A staged online booking awaiting its payment outcome. -/
def tempC1 : TempBookingDoc :=
  { userId := "u1", pickup := "addrP", dropAddr := "addrD", parcelDetails := "docs"
    fare := 100, couponCode := none, merchantReferenceId := "temp-u1-100-200"
    bookingId := none, expiresAt := 7200000 }

def stC1 : Store := ⟨[], [("temp-u1-100-200", tempC1)], []⟩

/-- A well-formed gateway webhook reporting SUCCESS for the staged id. -/
def rawC1 : RawWebhook :=
  { status := some true, txnStatus := some "SUCCESS"
    data := some ⟨some "temp-u1-100-200"⟩ }

/-- The store after the success webhook ran once. -/
def stC1a : Store := (handleWebhook stC1 "01-01-2025" rawC1).1

/-- The store after the same success webhook ran a second time. -/
def stC1b : Store := (handleWebhook stC1a "01-01-2025" rawC1).1

/-- A staged booking whose expiry (creation + 1 h) is already in the past
at observation time nowC2. -/
def tempC2 : TempBookingDoc :=
  { userId := "u2", pickup := "addrP", dropAddr := "addrD", parcelDetails := "docs"
    fare := 80, couponCode := none, merchantReferenceId := "temp-u2-1-2"
    bookingId := none, expiresAt := 3600000 }

def nowC2 : ℤ := 7200000

def stC2 : Store := ⟨[], [("temp-u2-1-2", tempC2)], []⟩

def rawC2 : RawWebhook :=
  { status := some true, txnStatus := some "SUCCESS"
    data := some ⟨some "temp-u2-1-2"⟩ }

/-- An existing online booking awaiting payment, under the id format
generateBookingId produces. -/
def bC4 : BookingDoc :=
  { userId := "u4", pickup := "addrP", dropAddr := "addrD", parcelDetails := "docs"
    status := .PendingPayment, paymentStatus := .pending, paymentMethod := some .online
    fare := some 250, couponCode := none, trackingNumber := "PW-01-01-2025-001"
    createdDay := "01-01-2025" }

def stC4 : Store := ⟨[("PW-01-01-2025-001", bC4)], [], []⟩

/-- The webhook for that booking: merchant reference id built at initiate
time as bookingId + dash + timestamp. -/
def rawC4 : RawWebhook :=
  { status := some true, txnStatus := some "SUCCESS"
    data := some ⟨some "PW-01-01-2025-001-1700000000000"⟩ }

/-- A pending online booking used to witness the paid-coupling rule. -/
def bW : BookingDoc :=
  { userId := "u5", pickup := "addrP", dropAddr := "addrD", parcelDetails := "docs"
    status := .PendingPayment, paymentStatus := .pending, paymentMethod := some .online
    fare := some 60, couponCode := none, trackingNumber := "PW-02-01-2025-001"
    createdDay := "02-01-2025" }

def stW : Store := ⟨[("PW-02-01-2025-001", bW)], [], []⟩

/-- A fixed-amount coupon with a configured max-discount cap below its
value. -/
def fixCapCoupon : Coupon :=
  { code := "FIX100", discountType := .fixed, discountValue := 100
    minOrderAmount := none, maxDiscountAmount := some 50, maxUsage := none
    currentUsage := 0, validFrom := 0, validUntil := 10, isActive := true }

/-- A ten-percent coupon capped at 100. -/
def save10 : Coupon :=
  { code := "SAVE10", discountType := .percentage, discountValue := 10
    minOrderAmount := none, maxDiscountAmount := some 100, maxUsage := none
    currentUsage := 0, validFrom := 0, validUntil := 10, isActive := true }

/-- A pricing rule set whose only tier carries a negative fare. -/
def negPricing : PricingSettings :=
  { baseRates := [{ minKm := 0, maxKm := 100, maxWeight := 100, fare := -10, applyGst := some false }]
    gstPercent := 18 }

/-- The Mumbai - Delhi route of the bidirectional scenario in the spec. -/
def mdRoute : CityRoute :=
  { fromCity := "Mumbai", toCity := "Delhi", baseFare := 500, heavyFare := 800
    gstPercent := 18, isActive := true }

/-! Helper lemmas -/

/-- JS Math.round of a nonnegative value is nonnegative. -/
theorem jsRound_nonneg {q : ℚ} (h : 0 ≤ q) : 0 ≤ jsRound q := by
  unfold jsRound
  have h2 : ((0 : ℤ) : ℚ) ≤ q + 1/2 := by push_cast; linarith
  have := Rat.le_floor.mpr h2
  exact_mod_cast this

/-- The first-match break loop is List.find? of the tier test. -/
theorem selectRateLoop_eq_find (d w : ℚ) :
    ∀ l : List BaseRate, selectRateLoop d w l = l.find? (matchesRate d w) := by
  intro l
  induction l with
  | nil => rfl
  | cons r rs ih =>
    by_cases h : matchesRate d w r
    · simp [selectRateLoop, List.find?, h]
    · simp only [Bool.not_eq_true] at h
      simp [selectRateLoop, List.find?, h, ih]

theorem highestRate_eq_foldl (r : BaseRate) (rs : List BaseRate) :
    highestRate (r :: rs) = some (rs.foldl maxFareStep r) := rfl

theorem foldl_maxFareStep_mem (rs : List BaseRate) :
    ∀ r : BaseRate, rs.foldl maxFareStep r ∈ r :: rs := by
  induction rs with
  | nil => intro r; simp [List.foldl]
  | cons c cs ih =>
    intro r
    have h := ih (maxFareStep r c)
    rcases List.mem_cons.mp h with h1 | h2
    · rw [List.foldl_cons, h1]
      unfold maxFareStep
      split <;> simp
    · simp [List.foldl_cons]
      right
      exact .inr h2

theorem foldl_maxFareStep_ge (rs : List BaseRate) :
    ∀ r : BaseRate, ∀ x ∈ r :: rs, x.fare ≤ (rs.foldl maxFareStep r).fare := by
  induction rs with
  | nil =>
    intro r x hx
    simp at hx
    simp [List.foldl, hx]
  | cons c cs ih =>
    intro r x hx
    have hr : r.fare ≤ (maxFareStep r c).fare := by
      unfold maxFareStep; split
      · exact le_refl _
      · exact le_of_not_lt (by assumption)
    have hc : c.fare ≤ (maxFareStep r c).fare := by
      unfold maxFareStep; split
      · exact le_of_lt (by assumption)
      · exact le_refl _
    have hacc := ih (maxFareStep r c) (maxFareStep r c) (List.mem_cons_self _ _)
    rcases List.mem_cons.mp hx with rfl | hx'
    · rw [List.foldl_cons]; exact le_trans hr hacc
    · rcases List.mem_cons.mp hx' with rfl | hx''
      · rw [List.foldl_cons]; exact le_trans hc hacc
      · rw [List.foldl_cons]
        exact ih (maxFareStep r c) x (List.mem_cons_of_mem _ hx'')

theorem highestRate_mem {l : List BaseRate} {r : BaseRate}
    (h : highestRate l = some r) : r ∈ l := by
  cases l with
  | nil => simp [highestRate] at h
  | cons a rs =>
    have := foldl_maxFareStep_mem rs a
    simp only [highestRate] at h
    have hr : rs.foldl maxFareStep a = r := by
      simpa [maxFareStep] using h
    rw [← hr]
    exact this

theorem highestRate_ge {l : List BaseRate} {r : BaseRate}
    (h : highestRate l = some r) : ∀ x ∈ l, x.fare ≤ r.fare := by
  cases l with
  | nil => simp [highestRate] at h
  | cons a rs =>
    intro x hx
    have hr : rs.foldl maxFareStep a = r := by
      simp only [highestRate] at h
      simpa [maxFareStep] using h
    rw [← hr]
    exact foldl_maxFareStep_ge rs a x hx

/-- Whatever tier is selected belongs to the rule set. -/
theorem selectedRate_mem {ps : PricingSettings} {d w : ℚ} {r : BaseRate}
    (h : selectedRate ps d w = some r) : r ∈ ps.baseRates := by
  unfold selectedRate at h
  rcases hl : selectRateLoop d w ps.baseRates with _ | r'
  · rw [hl] at h
    exact highestRate_mem h
  · rw [hl] at h
    cases h
    have := selectRateLoop_eq_find d w ps.baseRates
    rw [hl] at this
    exact List.mem_of_find?_eq_some this.symm

/-! Claim C6 -/

/-- C6: distance-based fare computation selects the first tier in order
with minKm ≤ distance ≤ maxKm and weight ≤ maxWeight; with no matching
tier it selects a tier of maximal fare; with an empty rule set it falls
back to the hard-coded minimum fare of 50 with GST disabled; and on the
default tiers, distance 45 km at 4 kg yields base fare 70, GST 13,
total 83. -/
theorem calculateFare_tier_selection (ps : PricingSettings) (d w : ℚ) :
    (∀ r, ps.baseRates.find? (matchesRate d w) = some r →
      selectedRate ps d w = some r ∧
      (calculateFare ps d w).baseFare = (if r.fare = 0 then 50 else r.fare)) ∧
    (ps.baseRates.find? (matchesRate d w) = none → ps.baseRates ≠ [] →
      ∃ r, selectedRate ps d w = some r ∧ r ∈ ps.baseRates ∧
        (∀ x ∈ ps.baseRates, x.fare ≤ r.fare) ∧
        (calculateFare ps d w).baseFare = (if r.fare = 0 then 50 else r.fare)) ∧
    (ps.baseRates = [] →
      calculateFare ps d w =
        { distanceInKm := jsRound (d * 100) / 100, baseFare := 50, gst := 0, totalFare := 50 }) ∧
    calculateFare DEFAULT_PRICING 45 4 =
      { distanceInKm := 45, baseFare := 70, gst := 13, totalFare := 83 } := by
  refine ⟨?_, ?_, ?_, by decide⟩
  · intro r h
    have hsel : selectedRate ps d w = some r := by
      unfold selectedRate
      rw [selectRateLoop_eq_find, h]
    exact ⟨hsel, by simp [calculateFare, hsel]⟩
  · intro hnone hne
    have hsome : ∃ r, highestRate ps.baseRates = some r := by
      cases h : ps.baseRates with
      | nil => exact absurd h hne
      | cons a rs => exact ⟨_, rfl⟩
    obtain ⟨r, hr⟩ := hsome
    have hsel : selectedRate ps d w = some r := by
      unfold selectedRate
      rw [selectRateLoop_eq_find, hnone]
      exact hr
    exact ⟨r, hsel, highestRate_mem hr, highestRate_ge hr, by simp [calculateFare, hsel]⟩
  · intro h
    simp [calculateFare, selectedRate, selectRateLoop, highestRate, h]

/-- Witness for C6: the first matching default tier at 45 km / 4 kg is the
41-60 km tier, and the base fare is its fare. -/
theorem calculateFare_tier_selection_witness :
    selectedRate DEFAULT_PRICING 45 4 =
      some { minKm := 41, maxKm := 60, maxWeight := 5, fare := 70, applyGst := some true } ∧
    (calculateFare DEFAULT_PRICING 45 4).baseFare = (if (70 : ℚ) = 0 then 50 else 70) :=
  (calculateFare_tier_selection DEFAULT_PRICING 45 4).1
    { minKm := 41, maxKm := 60, maxWeight := 5, fare := 70, applyGst := some true } (by decide)

/-! Claim C10 -/

/-- C10 counterexample: a pricing configuration whose matching tier has a
negative fare makes calculateFare return a non-positive base fare and
total fare, so positivity does not hold for every configuration. -/
theorem calculateFare_negative_tier_counterexample :
    (calculateFare negPricing 1 1).baseFare = -10 ∧
    (calculateFare negPricing 1 1).baseFare < 0 ∧
    (calculateFare negPricing 1 1).totalFare < 0 := by decide

/-- C10 amended: for every distance, weight, and pricing configuration
whose tier fares are nonnegative and whose GST percentage is nonnegative
(the only configurations the admin interface is meant to hold),
calculateFare returns a strictly positive base fare, falling back to the
hard-coded minimum of 50 exactly when the selected fare would otherwise be
0, and hence a strictly positive total fare. -/
theorem calculateFare_positive (ps : PricingSettings) (d w : ℚ)
    (hf : ∀ r ∈ ps.baseRates, 0 ≤ r.fare) (hg : 0 ≤ ps.gstPercent) :
    0 < (calculateFare ps d w).baseFare ∧
    0 < (calculateFare ps d w).totalFare ∧
    (rawSelectedFare ps d w = 0 → (calculateFare ps d w).baseFare = 50) := by
  have hbase0 : 0 ≤ rawSelectedFare ps d w := by
    unfold rawSelectedFare
    cases h : selectedRate ps d w with
    | none => simp
    | some r => simpa using hf r (selectedRate_mem h)
  have hBF : (calculateFare ps d w).baseFare =
      (if rawSelectedFare ps d w = 0 then 50 else rawSelectedFare ps d w) := rfl
  have hBpos : 0 < (calculateFare ps d w).baseFare := by
    rw [hBF]
    split
    · norm_num
    · exact lt_of_le_of_ne hbase0 (Ne.symm (by assumption))
  have heff : 0 ≤ (if ps.gstPercent = 0 then (18 : ℚ) else ps.gstPercent) := by
    split
    · norm_num
    · exact hg
  have hgst : 0 ≤ (calculateFare ps d w).gst := by
    have hshape : (calculateFare ps d w).gst = 0 ∨
        (calculateFare ps d w).gst = jsRound ((calculateFare ps d w).baseFare *
          (if ps.gstPercent = 0 then 18 else ps.gstPercent) / 100) := by
      by_cases hb : (if rawSelectedFare ps d w = 0 then false
          else match selectedRate ps d w with
               | some r => r.applyGst.getD true
               | none => false) = true
      · right
        show (if (if rawSelectedFare ps d w = 0 then false
            else match selectedRate ps d w with
                 | some r => r.applyGst.getD true
                 | none => false) then
          jsRound ((calculateFare ps d w).baseFare *
            (if ps.gstPercent = 0 then 18 else ps.gstPercent) / 100)
          else 0) = _
        rw [if_pos hb]
      · left
        show (if (if rawSelectedFare ps d w = 0 then false
            else match selectedRate ps d w with
                 | some r => r.applyGst.getD true
                 | none => false) then
          jsRound ((calculateFare ps d w).baseFare *
            (if ps.gstPercent = 0 then 18 else ps.gstPercent) / 100)
          else 0) = 0
        rw [if_neg hb]
    rcases hshape with h | h
    · rw [h]
    · rw [h]
      exact jsRound_nonneg
        (div_nonneg (mul_nonneg (le_of_lt hBpos) heff) (by norm_num))
  refine ⟨hBpos, ?_, ?_⟩
  · have ht : (calculateFare ps d w).totalFare =
        (calculateFare ps d w).baseFare + (calculateFare ps d w).gst := rfl
    rw [ht]
    linarith
  · intro h0
    rw [hBF, if_pos h0]

/-- Witness for C10: positivity at the default pricing, 45 km and 4 kg. -/
theorem calculateFare_positive_witness :
    0 < (calculateFare DEFAULT_PRICING 45 4).baseFare ∧
    0 < (calculateFare DEFAULT_PRICING 45 4).totalFare := by
  have h := calculateFare_positive DEFAULT_PRICING 45 4 (by decide) (by decide)
  exact ⟨h.1, h.2.1⟩

/-! Claim C8 -/

/-- C8 counterexample: a valid fixed-amount coupon with a configured max
discount cap of 50 yields a discount of 100 on an order of 200 — the cap
is not applied to the fixed branch, so the claim fails for that discount
type. -/
theorem validateCoupon_fixed_cap_counterexample :
    (validateCoupon fixCapCoupon 200 5).isValid = true ∧
    (validateCoupon fixCapCoupon 200 5).discountAmount = 100 ∧
    50 < (validateCoupon fixCapCoupon 200 5).discountAmount := by decide

/-- C8 amended: for every valid coupon the computed discount never exceeds
the pre-discount order amount; and for percentage coupons it also never
exceeds the configured (nonzero) max-discount cap.  The cap bound does not
extend to fixed coupons, as the counterexample shows. -/
theorem validateCoupon_discount_bounds (c : Coupon) (amt : ℚ) (now : ℤ)
    (hv : (validateCoupon c amt now).isValid = true) :
    (validateCoupon c amt now).discountAmount ≤ amt ∧
    (∀ m, c.discountType = .percentage → c.maxDiscountAmount = some m → m ≠ 0 →
      (validateCoupon c amt now).discountAmount ≤ m) := by
  unfold validateCoupon at hv ⊢
  split_ifs at hv ⊢
  all_goals try simp at hv
  dsimp only
  constructor
  · exact min_le_right _ _
  · intro m hdt hcap hm0
    rw [hdt, hcap]
    dsimp only
    have htr : qTruthy (some m) = true := by
      simp [qTruthy, hm0]
    by_cases hlt : (m : ℚ) < amt * c.discountValue / 100
    · rw [if_pos]
      · dsimp only [Option.getD]
        exact min_le_left _ _
      · simp [htr, hlt]
    · rw [if_neg]
      · exact le_trans (min_le_left _ _) (le_of_not_lt hlt)
      · simp [htr, hlt]

/-- Witness for C8: the ten-percent capped coupon applied to 944 stays
within both the order amount and its cap. -/
theorem validateCoupon_discount_bounds_witness :
    (validateCoupon save10 944 5).discountAmount ≤ 944 ∧
    (validateCoupon save10 944 5).discountAmount ≤ 100 := by
  have h := validateCoupon_discount_bounds save10 944 5 (by decide)
  exact ⟨h.1, h.2 100 rfl rfl (by norm_num)⟩

/-! Claim C7 -/

/-- Swapping the two city names does not change the route getCityRoute
finds: the per-document test is symmetric in the pair. -/
theorem getCityRoute_swap (routes : List CityRoute) (f t : String) :
    getCityRoute routes f t = getCityRoute routes t f := by
  unfold getCityRoute
  congr 1
  funext r
  unfold cityMatches
  simp only [decide_eq_decide]
  tauto

/-- The gstPercent stored by upsertCityRoute is never 0, justifying the
nonzero-gst hypothesis of the city-route fare theorem for every route the
service itself wrote. -/
theorem upsertGstPercent_ne_zero (g : ℚ) : upsertGstPercent g ≠ 0 := by
  unfold upsertGstPercent
  split
  · norm_num
  · assumption

/-- C7: when both city names are supplied (nonempty) and an active city
route matches the trimmed pair in either direction, the fare is the
base fare of the route for weight up to 3 kg and its heavy fare otherwise, GST
is the rounded gstPercent share of that fare, the total is their sum, the
outcome comes from the city-route branch (distance pricing skipped), and
swapping pickup and drop cities yields the identical result. -/
theorem cityRouteFare_of_match (routes : List CityRoute) (ps : PricingSettings)
    (p d : String) (w dist : ℚ) (r : CityRoute)
    (hw : 0 < w) (hp : p ≠ "") (hd : d ≠ "")
    (hr : getCityRoute routes (jsTrim p) (jsTrim d) = some r)
    (hg : r.gstPercent ≠ 0) :
    calculateBookingFare routes ps (some p) (some d) w dist =
      .ok (.cityRoute
        { baseFare := if w ≤ 3 then r.baseFare else r.heavyFare
          gst := jsRound ((if w ≤ 3 then r.baseFare else r.heavyFare) * r.gstPercent / 100)
          totalFare := (if w ≤ 3 then r.baseFare else r.heavyFare) +
            jsRound ((if w ≤ 3 then r.baseFare else r.heavyFare) * r.gstPercent / 100) }) ∧
    calculateBookingFare routes ps (some d) (some p) w dist =
      calculateBookingFare routes ps (some p) (some d) w dist := by
  have hW : ¬ (w ≤ 0) := not_le.mpr hw
  have hr' : getCityRoute routes (jsTrim d) (jsTrim p) = some r := by
    rw [getCityRoute_swap]
    exact hr
  have hfwd : calculateBookingFare routes ps (some p) (some d) w dist =
      .ok (.cityRoute (cityRouteFare r w)) := by
    unfold calculateBookingFare
    simp [hW, strTruthy, hp, hd, hr]
  have hbwd : calculateBookingFare routes ps (some d) (some p) w dist =
      .ok (.cityRoute (cityRouteFare r w)) := by
    unfold calculateBookingFare
    simp [hW, strTruthy, hp, hd, hr']
  have hfare : cityRouteFare r w =
      { baseFare := if w ≤ 3 then r.baseFare else r.heavyFare
        gst := jsRound ((if w ≤ 3 then r.baseFare else r.heavyFare) * r.gstPercent / 100)
        totalFare := (if w ≤ 3 then r.baseFare else r.heavyFare) +
          jsRound ((if w ≤ 3 then r.baseFare else r.heavyFare) * r.gstPercent / 100) } := by
    unfold cityRouteFare
    rw [if_neg hg]
  rw [hfwd, hbwd, hfare]
  exact ⟨rfl, rfl⟩

/-- Witness for C7: the Mumbai - Delhi route at 6 kg gives the heavy fare
800, GST 144, total 944, identically in both directions. -/
theorem cityRouteFare_of_match_witness :
    calculateBookingFare [mdRoute] DEFAULT_PRICING (some "Mumbai") (some "Delhi") 6 0 =
      .ok (.cityRoute
        { baseFare := if (6 : ℚ) ≤ 3 then mdRoute.baseFare else mdRoute.heavyFare
          gst := jsRound ((if (6 : ℚ) ≤ 3 then mdRoute.baseFare else mdRoute.heavyFare) *
            mdRoute.gstPercent / 100)
          totalFare := (if (6 : ℚ) ≤ 3 then mdRoute.baseFare else mdRoute.heavyFare) +
            jsRound ((if (6 : ℚ) ≤ 3 then mdRoute.baseFare else mdRoute.heavyFare) *
              mdRoute.gstPercent / 100) }) ∧
    calculateBookingFare [mdRoute] DEFAULT_PRICING (some "Delhi") (some "Mumbai") 6 0 =
      calculateBookingFare [mdRoute] DEFAULT_PRICING (some "Mumbai") (some "Delhi") 6 0 :=
  cityRouteFare_of_match [mdRoute] DEFAULT_PRICING "Mumbai" "Delhi" 6 0 mdRoute
    (by norm_num) (by decide) (by decide) (by decide) (by decide)

/-! Claim C5 -/

/-- C5: for every store state and every raw webhook body — malformed
payloads, unknown references and internal failures included — the webhook
endpoint acknowledges with HTTP 200; errors only flip the success flag in
the body. -/
theorem handleWebhook_always_200 (st : Store) (today : String) (raw : RawWebhook) :
    ((handleWebhook st today raw).2).status = 200 := by
  unfold handleWebhook
  rcases h : handleWebhookCore st today raw with ⟨st', r⟩
  cases r <;> simp

/-! Claim C9 -/

/-- C9: the try-block of updateFare does signal 404 for a missing booking
and 400 for a negative fare, but its catch-all rewraps both into a 500
Failed to update fare, so neither kind reaches the caller from the
service; only the separate pre-check of the route handler surfaces a 400 for a
negative fare, while a missing booking surfaces as a 500. -/
theorem updateFare_error_kinds_rewrapped :
    updateFareTry emptyStore "B404" 10 = .error ⟨"Booking not found", 404⟩ ∧
    updateFare emptyStore "B404" 10 = .error ⟨"Failed to update fare", 500⟩ ∧
    updateFareTry emptyStore "B404" (-5) = .error ⟨"Fare cannot be negative", 400⟩ ∧
    updateFare emptyStore "B404" (-5) = .error ⟨"Failed to update fare", 500⟩ ∧
    updateFareCtrl emptyStore "B404" (-5) = .error ⟨"Fare must be a positive number", 400⟩ ∧
    updateFareCtrl emptyStore "B404" 10 = .error ⟨"Failed to update fare", 500⟩ := by
  decide

/-! Claim C1 -/

/-- C1: the staged-success reconciliation is not idempotent — running the
webhook success handling twice for the same staged merchant reference id
(within the grace window, before the scheduled deletion fires) creates a
second permanent booking, because the staged record is still readable and
nothing checks its bookingId back-reference. -/
theorem webhook_success_twice_creates_two_bookings :
    stC1a.bookings.length = 1 ∧
    (getTempBookingData stC1a "temp-u1-100-200").isSome = true ∧
    stC1b.bookings.length = 2 ∧
    (getDoc stC1b.bookings "PW-01-01-2025-001").isSome = true ∧
    (getDoc stC1b.bookings "PW-01-01-2025-002").isSome = true := by
  decide

/-! Claim C2 -/

/-- C2: the staged record of stC2 is expired at observation time (the
spec-worded reader treats it as absent), yet getTempBookingData still
returns it — the source never consults expiresAt — so the success webhook
creates a permanent booking and acknowledges success instead of signalling
NotFound. -/
theorem webhook_expired_staged_record_still_creates_booking :
    tempC2.expiresAt < nowC2 ∧
    getTempBookingDataSpecRead stC2 "temp-u2-1-2" nowC2 = none ∧
    getTempBookingData stC2 "temp-u2-1-2" = some tempC2 ∧
    ((handleWebhook stC2 "02-01-2025" rawC2).1).bookings.length = 1 ∧
    (handleWebhook stC2 "02-01-2025" rawC2).2 = ⟨200, true⟩ := by
  decide

/-! Claim C4 -/

/-- C4: for an existing booking the webhook extracts the booking id as the
segment of the merchant reference id before the first dash; since permanent ids
themselves contain dashes (PW-DD-MM-YYYY-NNN), the extraction yields the
bare prefix PW, the payment-status update targets a nonexistent document,
and the real booking is left unpaid while the endpoint answers 200 with
success false. -/
theorem webhook_dashed_booking_id_never_paid :
    firstDashSegment "PW-01-01-2025-001-1700000000000" = "PW" ∧
    (handleWebhook stC4 "01-01-2025" rawC4).1 = stC4 ∧
    (handleWebhook stC4 "01-01-2025" rawC4).2 = ⟨200, false⟩ ∧
    (getDoc ((handleWebhook stC4 "01-01-2025" rawC4).1).bookings
      "PW-01-01-2025-001").map (·.paymentStatus) = some .pending := by
  decide

/-! Claim C3: the PendingPayment / paid coupling -/

/-- A document looked up in a collection is one of its entries. -/
theorem getDoc_mem {α : Type} {l : List (String × α)} {k : String} {v : α}
    (h : getDoc l k = some v) : (k, v) ∈ l := by
  unfold getDoc at h
  rcases hf : l.find? (fun kv => decide (kv.1 = k)) with _ | kv
  · rw [hf] at h; simp at h
  · rw [hf] at h
    simp at h
    have hmem := List.mem_of_find?_eq_some hf
    have hp := List.find?_some hf
    simp at hp
    have : kv = (k, v) := by
      cases kv
      simp_all
    rw [← this]
    exact hmem

/-- A member of a collection after a set is the written document or an
original member. -/
theorem mem_setDoc {α : Type} {k : String} {v : α} {kv : String × α} :
    ∀ {l : List (String × α)}, kv ∈ setDoc l k v → kv = (k, v) ∨ kv ∈ l := by
  intro l
  induction l with
  | nil =>
    intro h
    simp [setDoc] at h
    exact Or.inl h
  | cons a rest ih =>
    intro h
    simp only [setDoc] at h
    split at h
    · rcases List.mem_cons.mp h with h1 | h2
      · exact Or.inl h1
      · exact Or.inr (List.mem_cons_of_mem _ h2)
    · rcases List.mem_cons.mp h with h1 | h2
      · exact Or.inr (h1 ▸ List.mem_cons_self _ _)
      · rcases ih h2 with h3 | h4
        · exact Or.inl h3
        · exact Or.inr (List.mem_cons_of_mem _ h4)

/-- Writing a document that itself satisfies the invariant preserves it. -/
theorem noPendingPaid_setDoc {st : Store} {id : String} {doc : BookingDoc}
    (h : NoPendingPaid st)
    (hdoc : ¬(doc.status = .PendingPayment ∧ doc.paymentStatus = .paid)) :
    NoPendingPaid { st with bookings := setDoc st.bookings id doc } := by
  intro kv hkv
  rcases mem_setDoc hkv with rfl | hkv'
  · exact hdoc
  · exact h kv hkv'

/-- The invariant only looks at the bookings collection. -/
theorem noPendingPaid_of_bookings_eq {st st' : Store}
    (h : NoPendingPaid st) (he : st'.bookings = st.bookings) : NoPendingPaid st' := by
  intro kv hkv
  exact h kv (he ▸ hkv)

/-- createBooking writes a document whose payment status is pending, so it
preserves the invariant. -/
theorem createBooking_preserves {st : Store} (h : NoPendingPaid st)
    (today userId pickup dropAddr parcel : String) (fare : Option ℚ)
    (method : Option PaymentMethod) (coupon : Option String) :
    NoPendingPaid (createBooking st today userId pickup dropAddr parcel fare method coupon).1 := by
  unfold createBooking
  exact noPendingPaid_setDoc h (by simp)

/-- The try-block of updatePaymentStatus preserves the invariant: the only
way to write paid onto a PendingPayment booking also writes Created. -/
theorem updatePaymentStatusTry_preserves {st st' : Store} {id : String}
    {ps : PaymentStatus} (h : NoPendingPaid st)
    (hok : updatePaymentStatusTry st id ps = .ok st') : NoPendingPaid st' := by
  unfold updatePaymentStatusTry at hok
  rcases hd : getDoc st.bookings id with _ | b
  · rw [hd] at hok; cases hok
  · rw [hd] at hok
    cases hok
    apply noPendingPaid_setDoc h
    by_cases hc : ps = .paid ∧ b.status = .PendingPayment
    · simp [hc]
    · rw [if_neg hc]
      intro hcontra
      exact hc ⟨hcontra.2, hcontra.1⟩

theorem updatePaymentStatus_preserves {st st' : Store} {id : String}
    {ps : PaymentStatus} (h : NoPendingPaid st)
    (hok : updatePaymentStatus st id ps = .ok st') : NoPendingPaid st' := by
  unfold updatePaymentStatus at hok
  rcases ht : updatePaymentStatusTry st id ps with e | s
  · rw [ht] at hok; cases hok
  · rw [ht] at hok
    cases hok
    exact updatePaymentStatusTry_preserves h ht

/-- The status route handler only lets non-PendingPayment statuses through,
so it preserves the invariant. -/
theorem updateBookingStatusCtrl_preserves {st st' : Store} {id : String}
    {s : BookingStatus} (h : NoPendingPaid st)
    (hok : updateBookingStatusCtrl st id s = .ok st') : NoPendingPaid st' := by
  unfold updateBookingStatusCtrl at hok
  split at hok
  · rename_i hmem
    have hs : s ≠ .PendingPayment := by
      cases s <;> simp [validStatuses] at hmem ⊢
    unfold updateBookingStatus at hok
    rcases ht : updateBookingStatusTry st id s with e | s'
    · rw [ht] at hok; cases hok
    · rw [ht] at hok
      cases hok
      unfold updateBookingStatusTry at ht
      rcases hd : getDoc st.bookings id with _ | b
      · rw [hd] at ht; cases ht
      · rw [hd] at ht
        cases ht
        apply noPendingPaid_setDoc h
        intro hcontra
        exact hs hcontra.1
  · cases hok

theorem updateFareCtrl_preserves {st st' : Store} {id : String} {fare : ℚ}
    (h : NoPendingPaid st) (hok : updateFareCtrl st id fare = .ok st') :
    NoPendingPaid st' := by
  unfold updateFareCtrl at hok
  split at hok
  · cases hok
  · unfold updateFare at hok
    rcases ht : updateFareTry st id fare with e | s'
    · rw [ht] at hok; cases hok
    · rw [ht] at hok
      cases hok
      unfold updateFareTry at ht
      split at ht
      · cases ht
      · rcases hd : getDoc st.bookings id with _ | b
        · rw [hd] at ht; cases ht
        · rw [hd] at ht
          cases ht
          apply noPendingPaid_setDoc h
          have hb := h (id, b) (getDoc_mem hd)
          simpa using hb

theorem storeTempBookingData_preserves {st st' : Store} {now : ℤ}
    {userId pickup dropAddr parcel : String} {fare : ℚ} {coupon : Option String}
    {mref : String} (h : NoPendingPaid st)
    (hok : storeTempBookingData st now userId pickup dropAddr parcel fare coupon mref = .ok st') :
    NoPendingPaid st' := by
  unfold storeTempBookingData at hok
  split at hok
  · cases hok
  · split at hok
    · cases hok
    · cases hok
      exact noPendingPaid_of_bookings_eq h rfl

theorem updateTempBookingData_bookings (st : Store) (tempId bookingId : String) :
    (updateTempBookingData st tempId bookingId).bookings = st.bookings := by
  unfold updateTempBookingData
  rcases hd : getDoc st.temps tempId with _ | t <;> simp

/-- The webhook handler preserves the invariant along every path. -/
theorem handleWebhookCore_preserves (st : Store) (today : String) (raw : RawWebhook)
    (h : NoPendingPaid st) : NoPendingPaid (handleWebhookCore st today raw).1 := by
  unfold handleWebhookCore
  rcases hv : validateWebhookPayload raw with e | p
  · exact h
  · obtain ⟨ts, mref⟩ := p
    dsimp only
    by_cases hitr : isTempRef mref
    · rw [if_pos hitr]
      rcases hg : getTempBookingData st mref with _ | tmp
      · exact h
      · dsimp only
        by_cases hts : ts = "SUCCESS"
        · rw [if_pos hts]
          have h1 := createBooking_preserves h today tmp.userId tmp.pickup tmp.dropAddr
            tmp.parcelDetails (some tmp.fare) (some .online) tmp.couponCode
          rcases hu : updatePaymentStatus
              (createBooking st today tmp.userId tmp.pickup tmp.dropAddr
                tmp.parcelDetails (some tmp.fare) (some .online) tmp.couponCode).1
              (createBooking st today tmp.userId tmp.pickup tmp.dropAddr
                tmp.parcelDetails (some tmp.fare) (some .online) tmp.couponCode).2.1
              .paid with e | st2
          · exact h1
          · have h2 := updatePaymentStatus_preserves h1 hu
            apply noPendingPaid_of_bookings_eq h2
            show (scheduleTempDelete _ _).bookings = _
            unfold scheduleTempDelete
            exact updateTempBookingData_bookings st2 _ _
        · rw [if_neg hts]
          by_cases htf : ts = "FAILED"
          · rw [if_pos htf]
            exact noPendingPaid_of_bookings_eq h rfl
          · rw [if_neg htf]
            exact h
    · rw [if_neg hitr]
      by_cases hS : ts = "SUCCESS" ∧ firstDashSegment mref ≠ ""
      · rw [if_pos hS]
        rcases hu : updatePaymentStatus st (firstDashSegment mref) .paid with e | st'
        · exact h
        · exact updatePaymentStatus_preserves h hu
      · rw [if_neg hS]
        by_cases hF : ts = "FAILED" ∧ firstDashSegment mref ≠ ""
        · rw [if_pos hF]
          rcases hu : updatePaymentStatus st (firstDashSegment mref) .failed with e | st'
          · exact h
          · exact updatePaymentStatus_preserves h hu
        · rw [if_neg hF]
          exact h

theorem handleWebhook_preserves (st : Store) (today : String) (raw : RawWebhook)
    (h : NoPendingPaid st) : NoPendingPaid (handleWebhook st today raw).1 := by
  unfold handleWebhook
  rcases hc : handleWebhookCore st today raw with ⟨st', r⟩
  have := handleWebhookCore_preserves st today raw h
  rw [hc] at this
  cases r <;> exact this

/-- Every operation of the API surface preserves the invariant. -/
theorem applyOp_preserves (st : Store) (op : Op) (h : NoPendingPaid st) :
    NoPendingPaid (applyOp st op) := by
  cases op with
  | create today userId pickup dropAddr parcel fare method coupon =>
    exact createBooking_preserves h today userId pickup dropAddr parcel fare method coupon
  | setStatus id s =>
    simp only [applyOp]
    rcases hr : updateBookingStatusCtrl st id s with e | st'
    · exact h
    · exact updateBookingStatusCtrl_preserves h hr
  | setPaymentStatus id ps =>
    simp only [applyOp]
    rcases hr : updatePaymentStatus st id ps with e | st'
    · exact h
    · exact updatePaymentStatus_preserves h hr
  | setFare id fare =>
    simp only [applyOp]
    rcases hr : updateFareCtrl st id fare with e | st'
    · exact h
    · exact updateFareCtrl_preserves h hr
  | stage now userId pickup dropAddr parcel fare coupon mref =>
    simp only [applyOp]
    rcases hr : storeTempBookingData st now userId pickup dropAddr parcel fare coupon mref with e | st'
    · exact h
    · exact storeTempBookingData_preserves h hr
  | webhook today raw =>
    exact handleWebhook_preserves st today raw h
  | timer tempId =>
    simp only [applyOp]
    apply noPendingPaid_of_bookings_eq h
    unfold runScheduledDelete
    split <;> rfl

/-- C3: setting paid on a PendingPayment booking advances its status to
Created in the same single document write, and consequently no reachable
operation of the API surface can produce a booking that is PendingPayment
with a paid payment. -/
theorem paid_coupling_invariant :
    (∀ (st : Store) (id : String) (b : BookingDoc),
      getDoc st.bookings id = some b → b.status = .PendingPayment →
      updatePaymentStatusTry st id .paid =
        .ok { st with
              bookings :=
                setDoc st.bookings id ({ b with status := .Created, paymentStatus := .paid }) }) ∧
    (∀ (st : Store) (op : Op), NoPendingPaid st → NoPendingPaid (applyOp st op)) := by
  constructor
  · intro st id b hd hb
    simp [updatePaymentStatusTry, hd, hb]
  · exact fun st op h => applyOp_preserves st op h

/-- Witness for C3: the coupling rule applied to a concrete pending online
booking. -/
theorem paid_coupling_invariant_witness :
    updatePaymentStatusTry stW "PW-02-01-2025-001" .paid =
      .ok { stW with
            bookings :=
              setDoc stW.bookings "PW-02-01-2025-001"
                ({ bW with status := .Created, paymentStatus := .paid }) } :=
  paid_coupling_invariant.1 stW "PW-02-01-2025-001" bW (by decide) rfl

end ParcelWala
